import Mathlib

/-!
Verification of the retirement-calculator projection engine.

The JavaScript source is embedded shallowly over the rationals `ℚ`:
JS numbers are IEEE doubles, but every formula in the engine is built from
`+`, `-`, `*`, `/` and integer powers, so the exact-arithmetic embedding
mirrors the source expression for expression.  The single place where JS
float semantics are not total-rational (division by zero, which in JS
yields `NaN`/`Infinity` rather than a number) is modelled explicitly with
`Option ℚ` where a claim depends on it (`House.monthlyMortgagePaymentJS`).

Module map:
* `GeneralInformation`  — utilities.js `GeneralInformation` (the profile);
  `inflation` is documented in the source as a decimal rate (0.03 for 3%).
* `HealthcareCosts.*`   — healthcare module (`HealthcareConfig`,
  `HealthcareYear`, `HealthcareCosts.calculateData`).
* `TaxCalculator.*`     — tax module (`calculateFederalTax`,
  `calculateDeductions`, bracket tables, standard deductions).
* `House.*`             — housing.js `House.calculateData`, expressed as a
  year-indexed state recursion (`stateAt`/`dataAt`), where the state holds
  exactly the loop-carried variables of the source plus one ghost
  accumulator (`principalPaid`) summing the source's `yearlyPrincipalPaid`.
* `Apartment.*`         — housing.js `Apartment.calculateData` at object
  granularity (the object's `housingData` array is part of the state),
  used to study re-running `calculateData` on the same object.
* `TaxableInvestment.*`, `NonTaxableInvestment.*` — the two investment
  models; their `calculateData` reads, for scenario `j` and year `i`, only
  `housingCosts[j].housingData[i].yearlyCosts`,
  `livingExpenses.expensesData[i].yearlySpending` and
  `healthcare.healthcareData[i].annualCost`, so those three series enter
  the embedding as functions `Nat → ℚ`.
-/

namespace RetirementCalc

/-- Profile data, from utilities.js `GeneralInformation`.  `inflation` is the
annual inflation rate as a decimal (the source documents "0.03 for 3%" and
`readForm` divides the form's percentage by 100 exactly once). -/
structure GeneralInformation where
  startAge : Nat
  retirementAge : Nat
  lifeExpectancy : Nat
  inflation : ℚ
  socialSecurity : ℚ
  otherRetirementIncome : ℚ
  monthlySpending : ℚ
  retirementMonthlySpending : ℚ
deriving DecidableEq

/-- Healthcare configuration, from the healthcare module's `HealthcareConfig`. -/
structure HealthcareConfig where
  preMedicareMonthlyPremium : ℚ
  preMedicareAnnualDeductible : ℚ
  preMedicareAnnualOutOfPocket : ℚ
  medicarePartBPremium : ℚ
  medicarePartDPremium : ℚ
  medigapPremium : ℚ
  medicareAnnualOutOfPocket : ℚ
  includeLongTermCare : Bool
  longTermCarePremium : ℚ
  longTermCareStartAge : Nat
deriving DecidableEq

/-- One year of healthcare costs, from the healthcare module's `HealthcareYear`. -/
structure HealthcareYear where
  age : Nat
  annualCost : ℚ
  monthlyPremiums : ℚ
  outOfPocket : ℚ
deriving DecidableEq

/-- Medicare eligibility age, fixed at 65 in the source constructor. -/
def medicareEligibleAge : Nat := 65

/-- Body of the year loop of `HealthcareCosts.calculateData`.  Note the
source computes `inflationRate = generalInformation.inflation / 100` even
though `GeneralInformation.inflation` is already a decimal rate. -/
def HealthcareCosts.dataAt (g : GeneralInformation) (cfg : HealthcareConfig)
    (i : Nat) : HealthcareYear :=
  let inflationRate := g.inflation / 100
  let age := g.startAge + i
  let inflationMultiplier := (1 + inflationRate) ^ i
  let pre :=
    if age < medicareEligibleAge then
      (cfg.preMedicareMonthlyPremium * inflationMultiplier,
       (cfg.preMedicareAnnualDeductible + cfg.preMedicareAnnualOutOfPocket) *
         inflationMultiplier)
    else
      ((cfg.medicarePartBPremium + cfg.medicarePartDPremium + cfg.medigapPremium) *
         inflationMultiplier,
       cfg.medicareAnnualOutOfPocket * inflationMultiplier)
  let monthlyPremiums :=
    if cfg.includeLongTermCare ∧ cfg.longTermCareStartAge ≤ age then
      pre.1 + cfg.longTermCarePremium * inflationMultiplier
    else pre.1
  let outOfPocket := pre.2
  ⟨age, monthlyPremiums * 12 + outOfPocket, monthlyPremiums, outOfPocket⟩

/-- `HealthcareCosts.calculateData`: one `HealthcareYear` per simulated year. -/
def HealthcareCosts.calculateData (g : GeneralInformation)
    (cfg : HealthcareConfig) : List HealthcareYear :=
  (List.range (g.lifeExpectancy - g.startAge)).map (HealthcareCosts.dataAt g cfg)

theorem HealthcareCosts.calculateData_getElem (g : GeneralInformation)
    (cfg : HealthcareConfig) (i : Nat) (hi : i < g.lifeExpectancy - g.startAge) :
    (HealthcareCosts.calculateData g cfg)[i]? = some (HealthcareCosts.dataAt g cfg i) := by
  simp [HealthcareCosts.calculateData, List.getElem?_map, List.getElem?_range, hi]

/-- Concrete profile used to exhibit the healthcare inflation defect:
start at 60, inflation 3% given as the decimal 0.03, two simulated years. -/
def gHealth : GeneralInformation :=
  ⟨60, 65, 62, 3/100, 0, 0, 0, 0⟩

/-- The source constructor's default `HealthcareConfig`. -/
def cfgHealth : HealthcareConfig :=
  ⟨800, 5000, 3000, 1747/10, 55, 200, 2000, false, 250, 60⟩

/-- C1: the healthcare module divides the profile's decimal inflation rate by
100 a second time (`inflationRate = generalInformation.inflation / 100`), so
with inflation 0.03 the year-1 pre-Medicare premium is 800 × (1 + 0.0003) =
800.24, not the 800 × 1.03 = 824 that the claim (and the documented decimal
convention of `GeneralInformation.inflation`) prescribes. -/
theorem healthcare_inflation_double_division :
    (HealthcareCosts.calculateData gHealth cfgHealth)[1]?.map HealthcareYear.monthlyPremiums
        = some (800 * (1 + gHealth.inflation / 100)) ∧
    (HealthcareCosts.calculateData gHealth cfgHealth)[1]?.map HealthcareYear.outOfPocket
        = some ((5000 + 3000) * (1 + gHealth.inflation / 100)) ∧
    (800 : ℚ) * (1 + gHealth.inflation / 100) = 20006/25 ∧
    (800 : ℚ) * (1 + gHealth.inflation) = 824 ∧
    (20006/25 : ℚ) ≠ 824 := by
  refine ⟨?_, ?_, by norm_num [gHealth], by norm_num [gHealth], by norm_num⟩
  · rw [HealthcareCosts.calculateData_getElem gHealth cfgHealth 1 (by norm_num [gHealth])]
    norm_num [HealthcareCosts.dataAt, gHealth, cfgHealth, medicareEligibleAge]
  · rw [HealthcareCosts.calculateData_getElem gHealth cfgHealth 1 (by norm_num [gHealth])]
    norm_num [HealthcareCosts.dataAt, gHealth, cfgHealth, medicareEligibleAge]

/-- Filing status, from the tax module's `TaxConfig.filingStatus`
('single' or 'joint'). -/
inductive FilingStatus where
  | single
  | joint
deriving DecidableEq

/-- One federal tax bracket: `max = none` models the source's
`Infinity` upper bound of the last bracket. -/
structure TaxBracket where
  max : Option ℚ
  rate : ℚ
deriving DecidableEq

/-- 2024 federal tax brackets for single filers, from the tax module. -/
def FEDERAL_TAX_BRACKETS_SINGLE : List TaxBracket :=
  [⟨some 11600, 10/100⟩, ⟨some 47150, 12/100⟩, ⟨some 100525, 22/100⟩,
   ⟨some 191950, 24/100⟩, ⟨some 243725, 32/100⟩, ⟨some 609350, 35/100⟩,
   ⟨none, 37/100⟩]

/-- 2024 federal tax brackets for married filing jointly, from the tax module. -/
def FEDERAL_TAX_BRACKETS_JOINT : List TaxBracket :=
  [⟨some 23200, 10/100⟩, ⟨some 94300, 12/100⟩, ⟨some 201050, 22/100⟩,
   ⟨some 383900, 24/100⟩, ⟨some 487450, 32/100⟩, ⟨some 731200, 35/100⟩,
   ⟨none, 37/100⟩]

/-- Standard deduction constants for 2024 (`STANDARD_DEDUCTION` in the source). -/
def STANDARD_DEDUCTION (fs : FilingStatus) : ℚ :=
  match fs with
  | .single => 14600
  | .joint => 29200

/-- Tax configuration, from the tax module's `TaxConfig`. -/
structure TaxConfig where
  filingStatus : FilingStatus
  stateIncomeTaxRate : ℚ
  itemizeDeductions : Bool
  mortgageInterestDeduction : ℚ
  propertyTaxDeduction : ℚ
  otherDeductions : ℚ
deriving DecidableEq

/-- The bracket loop of `calculateFederalTax`: `previousMax` and `tax` are
the loop-carried variables.  When `bracket.max` is `Infinity` (`none`),
`Math.min(taxableIncome, max) = taxableIncome` and the `taxableIncome ≤ max`
break always fires, ending the loop. -/
def federalTaxGo (taxableIncome : ℚ) : List TaxBracket → ℚ → ℚ → ℚ
  | [], _, tax => tax
  | b :: rest, previousMax, tax =>
    if taxableIncome ≤ previousMax then tax
    else
      match b.max with
      | none => tax + (taxableIncome - previousMax) * b.rate
      | some m =>
        let tax' := tax + (min taxableIncome m - previousMax) * b.rate
        if taxableIncome ≤ m then tax' else federalTaxGo taxableIncome rest m tax'

/-- `TaxCalculator.calculateFederalTax`, selecting the bracket table by the
configured filing status. -/
def TaxCalculator.calculateFederalTax (cfg : TaxConfig) (taxableIncome : ℚ) : ℚ :=
  if taxableIncome ≤ 0 then 0
  else
    federalTaxGo taxableIncome
      (if cfg.filingStatus = .joint then FEDERAL_TAX_BRACKETS_JOINT
       else FEDERAL_TAX_BRACKETS_SINGLE) 0 0

/-- `TaxCalculator.calculateDeductions`: standard deduction when not
itemizing, else the larger of the standard deduction and the itemized total
with the $10k SALT cap on property tax. -/
def TaxCalculator.calculateDeductions (cfg : TaxConfig)
    (mortgageInterest propertyTax : ℚ) : ℚ :=
  let standardDeduction := STANDARD_DEDUCTION cfg.filingStatus
  if !cfg.itemizeDeductions then standardDeduction
  else
    let itemizedTotal := mortgageInterest + min propertyTax 10000 + cfg.otherDeductions
    max standardDeduction itemizedTotal

/-- Modelled from the spec: "apply the filing-status bracket table as a
marginal progressive schedule — each bracket taxes only the income falling
within its band".  Each bracket contributes
`rate × (portion of income between the running lower bound and its upper
bound, clamped at 0)`; an infinite upper bound takes all remaining income. -/
def marginalScheduleTax (taxableIncome : ℚ) : List TaxBracket → ℚ → ℚ
  | [], _ => 0
  | b :: rest, lower =>
    match b.max with
    | none => b.rate * max 0 (taxableIncome - lower)
    | some m =>
      b.rate * max 0 (min taxableIncome m - lower) +
        marginalScheduleTax taxableIncome rest m

/-- Well-formedness of a bracket table relative to a lower bound: upper
bounds ascend and the `Infinity` bracket, if present, is last. -/
def BracketsWF : ℚ → List TaxBracket → Prop
  | _, [] => True
  | lower, b :: rest =>
    match b.max with
    | none => rest = []
    | some m => lower ≤ m ∧ BracketsWF m rest

theorem marginalScheduleTax_eq_zero (taxableIncome : ℚ) :
    ∀ (bs : List TaxBracket) (lower : ℚ), taxableIncome ≤ lower →
      BracketsWF lower bs → marginalScheduleTax taxableIncome bs lower = 0 := by
  intro bs
  induction bs with
  | nil => intro lower _ _; rfl
  | cons b rest ih =>
    intro lower hle hwf
    cases hmax : b.max with
    | none =>
      simp only [marginalScheduleTax, hmax]
      have : taxableIncome - lower ≤ 0 := by linarith
      rw [max_eq_left this, mul_zero]
    | some m =>
      simp only [marginalScheduleTax, hmax]
      simp only [BracketsWF, hmax] at hwf
      have h1 : min taxableIncome m - lower ≤ 0 := by
        have := min_le_left taxableIncome m
        linarith
      rw [max_eq_left h1, mul_zero, zero_add]
      exact ih m (le_trans hle hwf.1) hwf.2

theorem federalTaxGo_eq_marginal (taxableIncome : ℚ) :
    ∀ (bs : List TaxBracket) (lower tax : ℚ), lower < taxableIncome →
      BracketsWF lower bs →
      federalTaxGo taxableIncome bs lower tax
        = tax + marginalScheduleTax taxableIncome bs lower := by
  intro bs
  induction bs with
  | nil => intro lower tax _ _; simp [federalTaxGo, marginalScheduleTax]
  | cons b rest ih =>
    intro lower tax hlt hwf
    cases hmax : b.max with
    | none =>
      simp only [federalTaxGo, marginalScheduleTax, hmax, if_neg (not_le.mpr hlt)]
      rw [max_eq_right (by linarith)]
      ring
    | some m =>
      simp only [BracketsWF, hmax] at hwf
      simp only [federalTaxGo, marginalScheduleTax, hmax, if_neg (not_le.mpr hlt)]
      have hband : (0:ℚ) ≤ min taxableIncome m - lower := by
        rcases le_total taxableIncome m with h | h
        · rw [min_eq_left h]; linarith
        · rw [min_eq_right h]; linarith
      rw [max_eq_right hband]
      by_cases hm : taxableIncome ≤ m
      · rw [if_pos hm,
          marginalScheduleTax_eq_zero taxableIncome rest m hm hwf.2]
        ring
      · rw [if_neg hm, ih m _ (not_le.mp hm) hwf.2]
        ring

theorem bracketsWF_single : BracketsWF 0 FEDERAL_TAX_BRACKETS_SINGLE := by
  simp only [FEDERAL_TAX_BRACKETS_SINGLE, BracketsWF]
  norm_num

/-- C6: for any configuration with single filing status,
`calculateFederalTax` computes the marginal progressive schedule of the
Single bracket table (each bracket taxes only the income within its band),
and at every published bracket boundary the result is exactly the
cumulative tax of all lower brackets; in particular tax(11600) = 1160. -/
theorem calculateFederalTax_single_marginal (sr : ℚ) (it : Bool) (mi pt od : ℚ) :
    (∀ taxableIncome : ℚ,
      TaxCalculator.calculateFederalTax ⟨.single, sr, it, mi, pt, od⟩ taxableIncome
        = marginalScheduleTax taxableIncome FEDERAL_TAX_BRACKETS_SINGLE 0) ∧
    TaxCalculator.calculateFederalTax ⟨.single, sr, it, mi, pt, od⟩ 11600
        = 11600 * (10/100) ∧
    TaxCalculator.calculateFederalTax ⟨.single, sr, it, mi, pt, od⟩ 47150
        = 11600 * (10/100) + (47150 - 11600) * (12/100) ∧
    TaxCalculator.calculateFederalTax ⟨.single, sr, it, mi, pt, od⟩ 100525
        = 11600 * (10/100) + (47150 - 11600) * (12/100) + (100525 - 47150) * (22/100) ∧
    TaxCalculator.calculateFederalTax ⟨.single, sr, it, mi, pt, od⟩ 191950
        = 11600 * (10/100) + (47150 - 11600) * (12/100) + (100525 - 47150) * (22/100) +
          (191950 - 100525) * (24/100) ∧
    TaxCalculator.calculateFederalTax ⟨.single, sr, it, mi, pt, od⟩ 243725
        = 11600 * (10/100) + (47150 - 11600) * (12/100) + (100525 - 47150) * (22/100) +
          (191950 - 100525) * (24/100) + (243725 - 191950) * (32/100) ∧
    TaxCalculator.calculateFederalTax ⟨.single, sr, it, mi, pt, od⟩ 609350
        = 11600 * (10/100) + (47150 - 11600) * (12/100) + (100525 - 47150) * (22/100) +
          (191950 - 100525) * (24/100) + (243725 - 191950) * (32/100) +
          (609350 - 243725) * (35/100) ∧
    TaxCalculator.calculateFederalTax ⟨.single, sr, it, mi, pt, od⟩ 11600 = 1160 := by
  have hmar : ∀ taxableIncome : ℚ,
      TaxCalculator.calculateFederalTax ⟨.single, sr, it, mi, pt, od⟩ taxableIncome
        = marginalScheduleTax taxableIncome FEDERAL_TAX_BRACKETS_SINGLE 0 := by
    intro ti
    by_cases h0 : ti ≤ 0
    · rw [TaxCalculator.calculateFederalTax, if_pos h0,
        marginalScheduleTax_eq_zero ti _ 0 h0 bracketsWF_single]
    · rw [TaxCalculator.calculateFederalTax, if_neg h0]
      simp only [show (FilingStatus.single = FilingStatus.joint) = False by
        simp, if_false]
      rw [federalTaxGo_eq_marginal ti _ 0 0 (not_le.mp h0) bracketsWF_single,
        zero_add]
  refine ⟨hmar, ?_, ?_, ?_, ?_, ?_, ?_, ?_⟩ <;>
    · rw [hmar]
      norm_num [marginalScheduleTax, FEDERAL_TAX_BRACKETS_SINGLE]

/-- C7: `calculateDeductions` returns the filing-status standard deduction
when not itemizing, otherwise `max(standardDeduction, mortgageInterest +
min(propertyTax, 10000) + otherDeductions)`; in every case the result is at
least the standard deduction. -/
theorem calculateDeductions_spec (cfg : TaxConfig) (mi pt : ℚ) :
    TaxCalculator.calculateDeductions cfg mi pt
      = (if cfg.itemizeDeductions
         then max (STANDARD_DEDUCTION cfg.filingStatus)
           (mi + min pt 10000 + cfg.otherDeductions)
         else STANDARD_DEDUCTION cfg.filingStatus) ∧
    STANDARD_DEDUCTION cfg.filingStatus ≤ TaxCalculator.calculateDeductions cfg mi pt := by
  constructor
  · cases h : cfg.itemizeDeductions <;>
      simp [TaxCalculator.calculateDeductions, h]
  · cases h : cfg.itemizeDeductions <;>
      simp [TaxCalculator.calculateDeductions, h]

/-- Taxable investment parameters (`TaxableInvestment` constructor). -/
structure TaxableInvestment where
  amount : ℚ
  annualRate : ℚ
  monthlyContribution : ℚ
  taxRate : ℚ
deriving DecidableEq

/-- Non-taxable investment parameters (`NonTaxableInvestment` constructor). -/
structure NonTaxableInvestment where
  amount : ℚ
  annualRate : ℚ
  monthlyContribution : ℚ
deriving DecidableEq

/-- The source's `healthcareCost = healthcare ? healthcare.healthcareData[i].annualCost : 0`:
the optional healthcare series contributes 0 when absent. -/
def healthCostAt (healthcare : Option (Nat → ℚ)) (i : Nat) : ℚ :=
  match healthcare with
  | none => 0
  | some f => f i

/-- Loop body of `NonTaxableInvestment.calculateData` for one scenario and
one year: accumulation before `retirementAge`, withdrawal of the uncovered
costs (if positive) after.  `housingCost i` stands for
`housingCosts[j].housingData[i].yearlyCosts` and `living i` for
`livingExpenses.expensesData[i].yearlySpending`. -/
def NonTaxableInvestment.yearValue (inv : NonTaxableInvestment)
    (g : GeneralInformation) (housingCost living : Nat → ℚ)
    (healthcare : Option (Nat → ℚ)) (i : Nat) (prev : ℚ) : ℚ :=
  if i < g.retirementAge - g.startAge then
    (prev + inv.monthlyContribution * 12) * (1 + inv.annualRate)
  else
    let uncoveredLivingCosts := housingCost i + living i + healthCostAt healthcare i
      - g.socialSecurity * 12 - g.otherRetirementIncome * 12
    let withdrawals := if 0 < uncoveredLivingCosts then -uncoveredLivingCosts else 0
    (prev + withdrawals) * (1 + inv.annualRate)

/-- Per-scenario balance of `NonTaxableInvestment.calculateData` at year `i`
(the source's `investmentData[i].value[j]`): the code computes scenario
`j`'s value from scenario `j`'s previous value only (`i == 0 ? amount :
investmentData[i-1].value[j]`), which is this recursion. -/
def NonTaxableInvestment.valueAt (inv : NonTaxableInvestment)
    (g : GeneralInformation) (housingCost living : Nat → ℚ)
    (healthcare : Option (Nat → ℚ)) : Nat → ℚ
  | 0 => NonTaxableInvestment.yearValue inv g housingCost living healthcare 0 inv.amount
  | i + 1 => NonTaxableInvestment.yearValue inv g housingCost living healthcare (i + 1)
      (NonTaxableInvestment.valueAt inv g housingCost living healthcare i)

/-- Year-`i` row of `NonTaxableInvestment.calculateData`
(`investmentData[i].value`): one balance per housing scenario, the inner
`j` loop becoming a map over the scenarios' cost series. -/
def NonTaxableInvestment.calculateData (inv : NonTaxableInvestment)
    (g : GeneralInformation) (housingCosts : List (Nat → ℚ)) (living : Nat → ℚ)
    (healthcare : Option (Nat → ℚ)) (i : Nat) : List ℚ :=
  housingCosts.map (fun hc => NonTaxableInvestment.valueAt inv g hc living healthcare i)

/-- Loop body of `TaxableInvestment.calculateData` for one scenario and one
year: identical to the non-taxable variant except that withdrawals are
grossed up by `1 + taxRate` and no healthcare series is consumed. -/
def TaxableInvestment.yearValue (inv : TaxableInvestment)
    (g : GeneralInformation) (housingCost living : Nat → ℚ) (i : Nat) (prev : ℚ) : ℚ :=
  if i < g.retirementAge - g.startAge then
    (prev + inv.monthlyContribution * 12) * (1 + inv.annualRate)
  else
    let uncoveredLivingCosts := housingCost i + living i
      - g.socialSecurity * 12 - g.otherRetirementIncome * 12
    let withdrawals :=
      if 0 < uncoveredLivingCosts then -uncoveredLivingCosts * (1 + inv.taxRate) else 0
    (prev + withdrawals) * (1 + inv.annualRate)

/-- Per-scenario balance of `TaxableInvestment.calculateData` at year `i`. -/
def TaxableInvestment.valueAt (inv : TaxableInvestment)
    (g : GeneralInformation) (housingCost living : Nat → ℚ) : Nat → ℚ
  | 0 => TaxableInvestment.yearValue inv g housingCost living 0 inv.amount
  | i + 1 => TaxableInvestment.yearValue inv g housingCost living (i + 1)
      (TaxableInvestment.valueAt inv g housingCost living i)

theorem NonTaxableInvestment.valueAt_pre_independent (inv : NonTaxableInvestment)
    (g : GeneralInformation) (hc hc' living : Nat → ℚ)
    (healthcare : Option (Nat → ℚ)) :
    ∀ i, i < g.retirementAge - g.startAge →
      NonTaxableInvestment.valueAt inv g hc living healthcare i
        = NonTaxableInvestment.valueAt inv g hc' living healthcare i := by
  intro i
  induction i with
  | zero =>
    intro h
    simp only [NonTaxableInvestment.valueAt, NonTaxableInvestment.yearValue, if_pos h]
  | succ n ih =>
    intro h
    have hn : n < g.retirementAge - g.startAge := Nat.lt_of_succ_lt h
    simp only [NonTaxableInvestment.valueAt, NonTaxableInvestment.yearValue,
      if_pos h, ih hn]

theorem NonTaxableInvestment.valueAt_congr_prefix (inv : NonTaxableInvestment)
    (g : GeneralInformation) (hc hc' living : Nat → ℚ)
    (healthcare : Option (Nat → ℚ)) (d : Nat)
    (hagree : ∀ k, k < d → hc k = hc' k) :
    ∀ i, i < d →
      NonTaxableInvestment.valueAt inv g hc living healthcare i
        = NonTaxableInvestment.valueAt inv g hc' living healthcare i := by
  intro i
  induction i with
  | zero =>
    intro h
    simp only [NonTaxableInvestment.valueAt, NonTaxableInvestment.yearValue,
      hagree 0 h]
  | succ n ih =>
    intro h
    simp only [NonTaxableInvestment.valueAt, NonTaxableInvestment.yearValue,
      hagree (n + 1) h, ih (Nat.lt_of_succ_lt h)]

theorem NonTaxableInvestment.calculateData_congr_prefix (inv : NonTaxableInvestment)
    (g : GeneralInformation) (living : Nat → ℚ) (healthcare : Option (Nat → ℚ))
    (d i' : Nat) (housingCosts housingCosts' : List (Nat → ℚ))
    (hagree : List.Forall₂ (fun hc hc' => ∀ k, k < d → hc k = hc' k)
      housingCosts housingCosts')
    (hi' : i' < d) :
    NonTaxableInvestment.calculateData inv g housingCosts living healthcare i'
      = NonTaxableInvestment.calculateData inv g housingCosts' living healthcare i' := by
  unfold NonTaxableInvestment.calculateData
  induction hagree with
  | nil => rfl
  | cons hHead _ ihTail =>
    simp only [List.map_cons, List.cons.injEq]
    exact ⟨NonTaxableInvestment.valueAt_congr_prefix inv g _ _ living healthcare d
      hHead i' hi', ihTail⟩

/-- C3: before retirement the per-scenario balances of
`NonTaxableInvestment.calculateData` are pairwise equal (the accumulation
formula does not read housing costs), and two runs whose scenario housing
cost series agree below year `d` produce identical balance rows for every
year below `d`. -/
theorem nonTaxable_scenario_independence (inv : NonTaxableInvestment)
    (g : GeneralInformation) (housingCosts housingCosts' : List (Nat → ℚ))
    (living : Nat → ℚ) (healthcare : Option (Nat → ℚ)) (i d i' j j' : Nat)
    (hpre : g.startAge + i < g.retirementAge)
    (hj : j < housingCosts.length) (hj' : j' < housingCosts.length)
    (hagree : List.Forall₂ (fun hc hc' => ∀ k, k < d → hc k = hc' k)
      housingCosts housingCosts')
    (hi' : i' < d) :
    (NonTaxableInvestment.calculateData inv g housingCosts living healthcare i)[j]?.map
        (fun v => v)
      = (NonTaxableInvestment.calculateData inv g housingCosts living healthcare i)[j']?.map
        (fun v => v) ∧
    NonTaxableInvestment.calculateData inv g housingCosts living healthcare i'
      = NonTaxableInvestment.calculateData inv g housingCosts' living healthcare i' := by
  have hiR : i < g.retirementAge - g.startAge := by omega
  constructor
  · simp only [NonTaxableInvestment.calculateData, Option.map_id', List.getElem?_map,
      List.getElem?_eq_getElem hj, List.getElem?_eq_getElem hj', Option.map_some]
    exact congrArg some
      ((NonTaxableInvestment.valueAt_pre_independent inv g housingCosts[j]
          (fun _ => 0) living healthcare i hiR).trans
        (NonTaxableInvestment.valueAt_pre_independent inv g housingCosts[j']
          (fun _ => 0) living healthcare i hiR).symm)
  · exact NonTaxableInvestment.calculateData_congr_prefix inv g living healthcare d i'
      housingCosts housingCosts' hagree hi'

/-- Concrete witness data for C3: two scenarios, the second one's housing
costs changed from year 3 on in the second run. -/
theorem nonTaxable_scenario_independence_witness :
    (NonTaxableInvestment.calculateData ⟨100, 0, 0⟩ ⟨60, 62, 90, 0, 0, 0, 0, 0⟩
        [fun _ => 1, fun _ => 2] (fun _ => 0) none 1)[0]?.map (fun v => v)
      = (NonTaxableInvestment.calculateData ⟨100, 0, 0⟩ ⟨60, 62, 90, 0, 0, 0, 0, 0⟩
        [fun _ => 1, fun _ => 2] (fun _ => 0) none 1)[1]?.map (fun v => v) ∧
    NonTaxableInvestment.calculateData ⟨100, 0, 0⟩ ⟨60, 62, 90, 0, 0, 0, 0, 0⟩
        [fun _ => 1, fun _ => 2] (fun _ => 0) none 2
      = NonTaxableInvestment.calculateData ⟨100, 0, 0⟩ ⟨60, 62, 90, 0, 0, 0, 0, 0⟩
        [fun _ => 1, fun k => if k < 3 then 2 else 5] (fun _ => 0) none 2 :=
  nonTaxable_scenario_independence ⟨100, 0, 0⟩ ⟨60, 62, 90, 0, 0, 0, 0, 0⟩
    [fun _ => 1, fun _ => 2] [fun _ => 1, fun k => if k < 3 then 2 else 5]
    (fun _ => 0) none 1 3 2 0 1 (by norm_num) (by norm_num) (by norm_num)
    (by
      refine List.Forall₂.cons (fun k _ => rfl) (List.Forall₂.cons ?_ List.Forall₂.nil)
      intro k hk
      simp [hk])
    (by norm_num)

/-- The source's `i == 0 ? this.amount : this.investmentData[i-1].value[j]`:
the balance carried into year `i` (taxable variant). -/
def TaxableInvestment.prevValue (inv : TaxableInvestment) (g : GeneralInformation)
    (housingCost living : Nat → ℚ) (i : Nat) : ℚ :=
  if i = 0 then inv.amount else TaxableInvestment.valueAt inv g housingCost living (i - 1)

/-- The source's `i == 0 ? this.amount : this.investmentData[i-1].value[j]`:
the balance carried into year `i` (non-taxable variant). -/
def NonTaxableInvestment.prevValue (inv : NonTaxableInvestment)
    (g : GeneralInformation) (housingCost living : Nat → ℚ)
    (healthcare : Option (Nat → ℚ)) (i : Nat) : ℚ :=
  if i = 0 then inv.amount
  else NonTaxableInvestment.valueAt inv g housingCost living healthcare (i - 1)

theorem TaxableInvestment.taxable_valueAt_unfold (inv : TaxableInvestment)
    (g : GeneralInformation) (housingCost living : Nat → ℚ) (i : Nat) :
    TaxableInvestment.valueAt inv g housingCost living i
      = TaxableInvestment.yearValue inv g housingCost living i
          (TaxableInvestment.prevValue inv g housingCost living i) := by
  cases i with
  | zero => rfl
  | succ n => simp [TaxableInvestment.valueAt, TaxableInvestment.prevValue]

theorem NonTaxableInvestment.nonTaxable_valueAt_unfold (inv : NonTaxableInvestment)
    (g : GeneralInformation) (housingCost living : Nat → ℚ)
    (healthcare : Option (Nat → ℚ)) (i : Nat) :
    NonTaxableInvestment.valueAt inv g housingCost living healthcare i
      = NonTaxableInvestment.yearValue inv g housingCost living healthcare i
          (NonTaxableInvestment.prevValue inv g housingCost living healthcare i) := by
  cases i with
  | zero => rfl
  | succ n => simp [NonTaxableInvestment.valueAt, NonTaxableInvestment.prevValue]

/-- C5: in the drawdown phase a positive shortfall is withdrawn grossed up
by `1 + taxRate` in the taxable variant and exactly in the non-taxable
variant; a non-positive shortfall withdraws 0 in both; and before
retirement both variants apply the same accumulation formula
`(prev + monthlyContribution×12) × (1 + annualRate)`, so their balances
coincide. -/
theorem investment_withdrawal_variants (g : GeneralInformation)
    (amount rate contrib taxRate : ℚ) (hcT hcN living : Nat → ℚ)
    (healthcare : Option (Nat → ℚ)) (i iz k : Nat)
    (hi : g.retirementAge ≤ g.startAge + i)
    (hiz : g.retirementAge ≤ g.startAge + iz)
    (hk : g.startAge + k < g.retirementAge)
    (hpos : 0 < hcT i + living i - g.socialSecurity * 12 - g.otherRetirementIncome * 12)
    (hposN : 0 < hcN i + living i + healthCostAt healthcare i
      - g.socialSecurity * 12 - g.otherRetirementIncome * 12)
    (hz : hcT iz + living iz - g.socialSecurity * 12 - g.otherRetirementIncome * 12 ≤ 0)
    (hzN : hcN iz + living iz + healthCostAt healthcare iz
      - g.socialSecurity * 12 - g.otherRetirementIncome * 12 ≤ 0) :
    TaxableInvestment.valueAt ⟨amount, rate, contrib, taxRate⟩ g hcT living i
      = (TaxableInvestment.prevValue ⟨amount, rate, contrib, taxRate⟩ g hcT living i
         - (hcT i + living i - g.socialSecurity * 12 - g.otherRetirementIncome * 12)
           * (1 + taxRate)) * (1 + rate) ∧
    NonTaxableInvestment.valueAt ⟨amount, rate, contrib⟩ g hcN living healthcare i
      = (NonTaxableInvestment.prevValue ⟨amount, rate, contrib⟩ g hcN living healthcare i
         - (hcN i + living i + healthCostAt healthcare i
            - g.socialSecurity * 12 - g.otherRetirementIncome * 12)) * (1 + rate) ∧
    TaxableInvestment.valueAt ⟨amount, rate, contrib, taxRate⟩ g hcT living iz
      = TaxableInvestment.prevValue ⟨amount, rate, contrib, taxRate⟩ g hcT living iz
        * (1 + rate) ∧
    NonTaxableInvestment.valueAt ⟨amount, rate, contrib⟩ g hcN living healthcare iz
      = NonTaxableInvestment.prevValue ⟨amount, rate, contrib⟩ g hcN living healthcare iz
        * (1 + rate) ∧
    TaxableInvestment.valueAt ⟨amount, rate, contrib, taxRate⟩ g hcT living k
      = (TaxableInvestment.prevValue ⟨amount, rate, contrib, taxRate⟩ g hcT living k
         + contrib * 12) * (1 + rate) ∧
    NonTaxableInvestment.valueAt ⟨amount, rate, contrib⟩ g hcN living healthcare k
      = (NonTaxableInvestment.prevValue ⟨amount, rate, contrib⟩ g hcN living healthcare k
         + contrib * 12) * (1 + rate) ∧
    TaxableInvestment.valueAt ⟨amount, rate, contrib, taxRate⟩ g hcT living k
      = NonTaxableInvestment.valueAt ⟨amount, rate, contrib⟩ g hcN living healthcare k := by
  have hiR : ¬ i < g.retirementAge - g.startAge := by omega
  have hizR : ¬ iz < g.retirementAge - g.startAge := by omega
  have hkR : k < g.retirementAge - g.startAge := by omega
  have hagree : ∀ m, m < g.retirementAge - g.startAge →
      TaxableInvestment.valueAt ⟨amount, rate, contrib, taxRate⟩ g hcT living m
        = NonTaxableInvestment.valueAt ⟨amount, rate, contrib⟩ g hcN living healthcare m := by
    intro m
    induction m with
    | zero =>
      intro hm
      simp only [TaxableInvestment.valueAt, NonTaxableInvestment.valueAt,
        TaxableInvestment.yearValue, NonTaxableInvestment.yearValue, if_pos hm]
    | succ n ih =>
      intro hm
      simp only [TaxableInvestment.valueAt, NonTaxableInvestment.valueAt,
        TaxableInvestment.yearValue, NonTaxableInvestment.yearValue, if_pos hm,
        ih (Nat.lt_of_succ_lt hm)]
  refine ⟨?_, ?_, ?_, ?_, ?_, ?_, hagree k hkR⟩
  · rw [TaxableInvestment.taxable_valueAt_unfold]
    simp only [TaxableInvestment.yearValue, if_neg hiR, if_pos hpos]
    ring
  · rw [NonTaxableInvestment.nonTaxable_valueAt_unfold]
    simp only [NonTaxableInvestment.yearValue, if_neg hiR, if_pos hposN]
    ring
  · rw [TaxableInvestment.taxable_valueAt_unfold]
    simp only [TaxableInvestment.yearValue, if_neg hizR, if_neg (not_lt.mpr hz)]
    ring
  · rw [NonTaxableInvestment.nonTaxable_valueAt_unfold]
    simp only [NonTaxableInvestment.yearValue, if_neg hizR, if_neg (not_lt.mpr hzN)]
    ring
  · rw [TaxableInvestment.taxable_valueAt_unfold]
    simp only [TaxableInvestment.yearValue, if_pos hkR]
  · rw [NonTaxableInvestment.nonTaxable_valueAt_unfold]
    simp only [NonTaxableInvestment.yearValue, if_pos hkR]

/-- Concrete witness data for C5: retirement two years in, positive
shortfall in year 2, non-positive shortfall in year 3, accumulation year 1. -/
theorem investment_withdrawal_variants_witness :
    TaxableInvestment.valueAt ⟨1000, 0, 10, 1/10⟩ ⟨60, 62, 90, 0, 0, 0, 0, 0⟩
        (fun m => if m = 3 then -5 else 5) (fun _ => 0) 2
      = (TaxableInvestment.prevValue ⟨1000, 0, 10, 1/10⟩ ⟨60, 62, 90, 0, 0, 0, 0, 0⟩
          (fun m => if m = 3 then -5 else 5) (fun _ => 0) 2
         - ((if (2:Nat) = 3 then (-5:ℚ) else 5) + (fun _ : Nat => (0:ℚ)) 2
            - (0:ℚ) * 12 - (0:ℚ) * 12) * (1 + 1/10)) * (1 + 0) ∧
    NonTaxableInvestment.valueAt ⟨1000, 0, 10⟩ ⟨60, 62, 90, 0, 0, 0, 0, 0⟩
        (fun m => if m = 3 then -5 else 5) (fun _ => 0) none 2
      = (NonTaxableInvestment.prevValue ⟨1000, 0, 10⟩ ⟨60, 62, 90, 0, 0, 0, 0, 0⟩
          (fun m => if m = 3 then -5 else 5) (fun _ => 0) none 2
         - ((if (2:Nat) = 3 then (-5:ℚ) else 5) + (fun _ : Nat => (0:ℚ)) 2
            + healthCostAt none 2 - (0:ℚ) * 12 - (0:ℚ) * 12)) * (1 + 0) ∧
    TaxableInvestment.valueAt ⟨1000, 0, 10, 1/10⟩ ⟨60, 62, 90, 0, 0, 0, 0, 0⟩
        (fun m => if m = 3 then -5 else 5) (fun _ => 0) 3
      = TaxableInvestment.prevValue ⟨1000, 0, 10, 1/10⟩ ⟨60, 62, 90, 0, 0, 0, 0, 0⟩
          (fun m => if m = 3 then -5 else 5) (fun _ => 0) 3 * (1 + 0) ∧
    NonTaxableInvestment.valueAt ⟨1000, 0, 10⟩ ⟨60, 62, 90, 0, 0, 0, 0, 0⟩
        (fun m => if m = 3 then -5 else 5) (fun _ => 0) none 3
      = NonTaxableInvestment.prevValue ⟨1000, 0, 10⟩ ⟨60, 62, 90, 0, 0, 0, 0, 0⟩
          (fun m => if m = 3 then -5 else 5) (fun _ => 0) none 3 * (1 + 0) ∧
    TaxableInvestment.valueAt ⟨1000, 0, 10, 1/10⟩ ⟨60, 62, 90, 0, 0, 0, 0, 0⟩
        (fun m => if m = 3 then -5 else 5) (fun _ => 0) 1
      = (TaxableInvestment.prevValue ⟨1000, 0, 10, 1/10⟩ ⟨60, 62, 90, 0, 0, 0, 0, 0⟩
          (fun m => if m = 3 then -5 else 5) (fun _ => 0) 1 + 10 * 12) * (1 + 0) ∧
    NonTaxableInvestment.valueAt ⟨1000, 0, 10⟩ ⟨60, 62, 90, 0, 0, 0, 0, 0⟩
        (fun m => if m = 3 then -5 else 5) (fun _ => 0) none 1
      = (NonTaxableInvestment.prevValue ⟨1000, 0, 10⟩ ⟨60, 62, 90, 0, 0, 0, 0, 0⟩
          (fun m => if m = 3 then -5 else 5) (fun _ => 0) none 1 + 10 * 12) * (1 + 0) ∧
    TaxableInvestment.valueAt ⟨1000, 0, 10, 1/10⟩ ⟨60, 62, 90, 0, 0, 0, 0, 0⟩
        (fun m => if m = 3 then -5 else 5) (fun _ => 0) 1
      = NonTaxableInvestment.valueAt ⟨1000, 0, 10⟩ ⟨60, 62, 90, 0, 0, 0, 0, 0⟩
        (fun m => if m = 3 then -5 else 5) (fun _ => 0) none 1 :=
  investment_withdrawal_variants ⟨60, 62, 90, 0, 0, 0, 0, 0⟩ 1000 0 10 (1/10)
    (fun m => if m = 3 then -5 else 5) (fun m => if m = 3 then -5 else 5)
    (fun _ => 0) none 2 3 1 (by norm_num) (by norm_num) (by norm_num)
    (by norm_num) (by norm_num [healthCostAt]) (by norm_num)
    (by norm_num [healthCostAt])

/-- One year of housing data, from housing.js `HousingYear`. -/
structure HousingYear where
  age : Nat
  value : ℚ
  yearlyCosts : ℚ
  totalCosts : ℚ
deriving DecidableEq

/-- House parameters, from housing.js `House` (the constructor fields). -/
structure House where
  generalInformation : GeneralInformation
  monthlyInsurance : ℚ
  monthlyHOA : ℚ
  mortgage : ℚ
  downPayment : ℚ
  mortgageRate : ℚ
  mortgageTermYears : Nat
  propertyTaxAssessment : ℚ
  homeAppreciationRate : ℚ
  oneTimeImprovements : ℚ
  annualMaintenanceCost : ℚ
deriving DecidableEq

/-- `monthlyRate = mortgageRate / 12`. -/
def House.monthlyRate (h : House) : ℚ := h.mortgageRate / 12

/-- `totalPayments = mortgageTermYears * 12`. -/
def House.totalPayments (h : House) : Nat := h.mortgageTermYears * 12

/-- The source's monthly payment with JS division semantics: when the
denominator `(1+r)^n − 1` is zero (exactly the `mortgageRate = 0` case) the
JS expression is `0/0 = NaN`, modelled as `none`.  `mortgage ≤ 0` takes the
guarded `: 0` branch. -/
def House.monthlyMortgagePaymentJS (h : House) : Option ℚ :=
  if 0 < h.mortgage then
    if (1 + h.monthlyRate) ^ h.totalPayments - 1 = 0 then none
    else
      some (h.mortgage * (h.monthlyRate * (1 + h.monthlyRate) ^ h.totalPayments)
        / ((1 + h.monthlyRate) ^ h.totalPayments - 1))
  else some 0

/-- The monthly payment as a total rational (Lean's `/` sends a zero
denominator to 0); it agrees with `monthlyMortgagePaymentJS` whenever the
latter is a finite number (`monthlyMortgagePaymentJS_eq_some`). -/
def House.monthlyMortgagePayment (h : House) : ℚ :=
  if 0 < h.mortgage then
    h.mortgage * (h.monthlyRate * (1 + h.monthlyRate) ^ h.totalPayments)
      / ((1 + h.monthlyRate) ^ h.totalPayments - 1)
  else 0

theorem House.monthlyMortgagePaymentJS_eq_some (h : House)
    (hden : (1 + h.monthlyRate) ^ h.totalPayments - 1 ≠ 0) :
    h.monthlyMortgagePaymentJS = some h.monthlyMortgagePayment := by
  by_cases hm : 0 < h.mortgage <;>
    simp [House.monthlyMortgagePaymentJS, House.monthlyMortgagePayment, hm, hden]

/-- The three loop-carried variables of the source's inner month loop. -/
structure MonthState where
  remainingPrincipal : ℚ
  yearlyPrincipalPaid : ℚ
  yearlyInterestPaid : ℚ
deriving DecidableEq

/-- One iteration of the source's month loop: interest on the remaining
principal, principal portion = payment − interest, with the negative
remainder clamped to 0 ("Prevent negative principal due to rounding"). -/
def House.monthStep (payment monthlyRate : ℚ) (s : MonthState) : MonthState :=
  let monthlyInterest := s.remainingPrincipal * monthlyRate
  let monthlyPrincipal := payment - monthlyInterest
  let rp := s.remainingPrincipal - monthlyPrincipal
  ⟨if rp < 0 then 0 else rp,
   s.yearlyPrincipalPaid + monthlyPrincipal,
   s.yearlyInterestPaid + monthlyInterest⟩

/-- The loop-carried variables of `House.calculateData`'s year loop:
`currentValue`, `remainingPrincipal`, the four cost baselines the source
inflates in place at the end of each year, the previous record's
`totalCosts` (the source reads `housingData[i-1].totalCosts`, which for the
freshly constructed object is the record pushed the previous iteration),
and a ghost accumulator `principalPaid` summing the source's per-year
`yearlyPrincipalPaid` values. -/
structure HouseState where
  currentValue : ℚ
  remainingPrincipal : ℚ
  annualMaintenanceCost : ℚ
  propertyTaxAssessment : ℚ
  monthlyInsurance : ℚ
  monthlyHOA : ℚ
  prevTotalCosts : ℚ
  principalPaid : ℚ
deriving DecidableEq

/-- One iteration of `House.calculateData`'s year loop: the produced
`HousingYear` record and the next state. -/
def House.yearStep (h : House) (i : Nat) (s : HouseState) : HousingYear × HouseState :=
  let payment := h.monthlyMortgagePayment
  let inMortgage := i < h.mortgageTermYears ∧ 0 < s.remainingPrincipal
  let m := if inMortgage
    then (House.monthStep payment h.monthlyRate)^[12] ⟨s.remainingPrincipal, 0, 0⟩
    else ⟨s.remainingPrincipal, 0, 0⟩
  let yearlyCosts0 := s.monthlyInsurance * 12 + s.monthlyHOA * 12 + s.propertyTaxAssessment
  let yearlyCosts1 := if inMortgage then yearlyCosts0 + payment * 12 else yearlyCosts0
  let yearlyCosts := if i = 0 then yearlyCosts1 + h.oneTimeImprovements
    else yearlyCosts1 + s.annualMaintenanceCost
  let currentValue := s.currentValue * (1 + h.homeAppreciationRate)
  let totalCosts := if i = 0 then yearlyCosts else s.prevTotalCosts + yearlyCosts
  (⟨h.generalInformation.startAge + i, currentValue, yearlyCosts, totalCosts⟩,
   ⟨currentValue, m.remainingPrincipal,
    s.annualMaintenanceCost * (1 + h.generalInformation.inflation),
    s.propertyTaxAssessment * (1 + h.generalInformation.inflation),
    s.monthlyInsurance * (1 + h.generalInformation.inflation),
    s.monthlyHOA * (1 + h.generalInformation.inflation),
    totalCosts, s.principalPaid + m.yearlyPrincipalPaid⟩)

/-- Loop state before year `i`: the initial state holds the constructor
values, with `currentValue = downPayment + mortgage` ("Start with full home
value") and `remainingPrincipal = mortgage`. -/
def House.stateAt (h : House) : Nat → HouseState
  | 0 => ⟨h.downPayment + h.mortgage, h.mortgage, h.annualMaintenanceCost,
      h.propertyTaxAssessment, h.monthlyInsurance, h.monthlyHOA, 0, 0⟩
  | i + 1 => (h.yearStep i (h.stateAt i)).2

/-- The `HousingYear` record pushed for year `i`. -/
def House.dataAt (h : House) (i : Nat) : HousingYear := (h.yearStep i (h.stateAt i)).1

/-- The year-loop bound `years = lifeExpectancy - startAge`. -/
def House.years (h : House) : Nat :=
  h.generalInformation.lifeExpectancy - h.generalInformation.startAge

/-- `House.calculateData`: the `housingData` array built by the year loop. -/
def House.calculateData (h : House) : List HousingYear :=
  (List.range h.years).map h.dataAt

/-- The standard amortization payment `P·r(1+r)^n / ((1+r)^n − 1)`. -/
def amortPayment (P r : ℚ) (n : Nat) : ℚ :=
  P * (r * (1 + r) ^ n) / ((1 + r) ^ n - 1)

/-- Closed form for the remaining principal after `k` of `n` months. -/
def amortRemaining (P r : ℚ) (n k : Nat) : ℚ :=
  P * ((1 + r) ^ n - (1 + r) ^ k) / ((1 + r) ^ n - 1)

theorem amortDenom_pos {r : ℚ} (hr : 0 < r) {n : Nat} (hn : n ≠ 0) :
    0 < (1 + r) ^ n - 1 :=
  sub_pos.mpr (one_lt_pow₀ (by linarith) hn)

theorem amortRemaining_zero {P r : ℚ} (hr : 0 < r) {n : Nat} (hn : n ≠ 0) :
    amortRemaining P r n 0 = P := by
  have hD := (amortDenom_pos hr hn).ne'
  rw [amortRemaining, pow_zero]
  field_simp

theorem amortRemaining_last (P r : ℚ) (n : Nat) : amortRemaining P r n n = 0 := by
  simp [amortRemaining]

theorem amortRemaining_nonneg {P r : ℚ} (hP : 0 < P) (hr : 0 < r) {n k : Nat}
    (hn : n ≠ 0) (hk : k ≤ n) : 0 ≤ amortRemaining P r n k :=
  div_nonneg
    (mul_nonneg hP.le (sub_nonneg.mpr (pow_le_pow_right₀ (by linarith) hk)))
    (amortDenom_pos hr hn).le

theorem amortRemaining_pos {P r : ℚ} (hP : 0 < P) (hr : 0 < r) {n k : Nat}
    (hn : n ≠ 0) (hk : k < n) : 0 < amortRemaining P r n k :=
  div_pos (mul_pos hP (sub_pos.mpr (pow_lt_pow_right₀ (by linarith) hk)))
    (amortDenom_pos hr hn)

theorem amort_monthStep {P r : ℚ} (hP : 0 < P) (hr : 0 < r) {n k : Nat}
    (hn : n ≠ 0) (hk : k < n) (y z : ℚ) :
    House.monthStep (amortPayment P r n) r ⟨amortRemaining P r n k, y, z⟩
      = ⟨amortRemaining P r n (k + 1),
         y + (amortRemaining P r n k - amortRemaining P r n (k + 1)),
         z + amortRemaining P r n k * r⟩ := by
  have hD := (amortDenom_pos hr hn).ne'
  have hkey : amortRemaining P r n k - (amortPayment P r n - amortRemaining P r n k * r)
      = amortRemaining P r n (k + 1) := by
    rw [amortRemaining, amortRemaining, amortPayment]
    field_simp
    ring
  have hnonneg : 0 ≤ amortRemaining P r n (k + 1) :=
    amortRemaining_nonneg hP hr hn (by omega)
  simp only [House.monthStep]
  rw [hkey, if_neg (not_lt.mpr hnonneg)]
  simp only [MonthState.mk.injEq, true_and, and_true]
  linarith

theorem amort_iterate {P r : ℚ} (hP : 0 < P) (hr : 0 < r) {n : Nat} (hn : n ≠ 0) :
    ∀ (m k : Nat) (y z : ℚ), k + m ≤ n →
      ∃ z', (House.monthStep (amortPayment P r n) r)^[m] ⟨amortRemaining P r n k, y, z⟩
        = ⟨amortRemaining P r n (k + m),
           y + (amortRemaining P r n k - amortRemaining P r n (k + m)), z'⟩ := by
  intro m
  induction m with
  | zero => intro k y z _; exact ⟨z, by simp⟩
  | succ mm ih =>
    intro k y z hkm
    rw [Function.iterate_succ_apply,
      amort_monthStep hP hr hn (by omega : k < n) y z]
    obtain ⟨z', hz'⟩ := ih (k + 1) _ _ (by omega)
    refine ⟨z', ?_⟩
    rw [hz', show k + 1 + mm = k + (mm + 1) by omega]
    simp only [MonthState.mk.injEq, true_and, and_true]
    ring

theorem House.amort_invariant (h : House) (hm : 0 < h.mortgage)
    (hr : 0 < h.mortgageRate) (ht : h.mortgageTermYears ≠ 0) :
    ∀ i, i ≤ h.mortgageTermYears →
      (h.stateAt i).remainingPrincipal
          = amortRemaining h.mortgage h.monthlyRate h.totalPayments (12 * i) ∧
      (h.stateAt i).principalPaid
          = h.mortgage - amortRemaining h.mortgage h.monthlyRate h.totalPayments (12 * i) := by
  have hr' : 0 < h.monthlyRate := by rw [House.monthlyRate]; positivity
  have hn : h.totalPayments ≠ 0 := by simp [House.totalPayments]; omega
  have hpay : h.monthlyMortgagePayment = amortPayment h.mortgage h.monthlyRate h.totalPayments := by
    rw [House.monthlyMortgagePayment, if_pos hm]; rfl
  intro i
  induction i with
  | zero =>
    intro _
    constructor
    · rw [House.stateAt, show 12 * 0 = 0 by omega, amortRemaining_zero hr' hn]
    · rw [House.stateAt, show 12 * 0 = 0 by omega, amortRemaining_zero hr' hn]
      simp
  | succ ii ih =>
    intro hle
    have hii := ih (by omega)
    have hrempos : 0 < (h.stateAt ii).remainingPrincipal := by
      rw [hii.1]
      exact amortRemaining_pos hm hr' hn
        (by simp only [House.totalPayments]; omega)
    obtain ⟨z', hz'⟩ := amort_iterate hm hr' hn 12 (12 * ii) 0 0
      (by simp only [House.totalPayments]; omega)
    have hstep : h.stateAt (ii + 1) = (h.yearStep ii (h.stateAt ii)).2 := rfl
    rw [hstep]
    simp only [House.yearStep,
      if_pos (⟨by omega, hrempos⟩ : ii < h.mortgageTermYears ∧ 0 < (h.stateAt ii).remainingPrincipal)]
    rw [hpay, hii.1, hz', show 12 * ii + 12 = 12 * (ii + 1) by omega]
    constructor
    · rfl
    · show (h.stateAt ii).principalPaid
          + (0 + (amortRemaining h.mortgage h.monthlyRate h.totalPayments (12 * ii)
                  - amortRemaining h.mortgage h.monthlyRate h.totalPayments (12 * (ii + 1)))) = _
      rw [hii.2]
      ring

/-- C4: for a $300{,}000, 30-year, 6% mortgage and a horizon of at least 30
years, the sum of the 360 monthly principal portions computed by the month
loop equals the original principal, and the remaining principal after the
360th month is 0 — exactly, since the embedding computes in exact rational
arithmetic (no floating rounding). -/
theorem house_amortization_300k (g : GeneralInformation)
    (ins hoa down tax app imp maint : ℚ)
    (hyrs : 30 ≤ g.lifeExpectancy - g.startAge) :
    30 ≤ (House.calculateData
      ⟨g, ins, hoa, 300000, down, 6/100, 30, tax, app, imp, maint⟩).length ∧
    (House.stateAt ⟨g, ins, hoa, 300000, down, 6/100, 30, tax, app, imp, maint⟩ 30).principalPaid
      = 300000 ∧
    (House.stateAt ⟨g, ins, hoa, 300000, down, 6/100, 30, tax, app, imp, maint⟩ 30).remainingPrincipal
      = 0 := by
  have hinv := House.amort_invariant
    ⟨g, ins, hoa, 300000, down, 6/100, 30, tax, app, imp, maint⟩
    (by norm_num) (by norm_num) (by norm_num) 30 le_rfl
  have hlast : amortRemaining (300000 : ℚ) ((6:ℚ)/100/12) (30 * 12) (12 * 30) = 0 := by
    rw [show (12 * 30 : Nat) = 30 * 12 by omega]
    exact amortRemaining_last _ _ _
  refine ⟨?_, ?_, ?_⟩
  · simpa [House.calculateData, House.years] using hyrs
  · rw [hinv.2]
    simp only [House.monthlyRate, House.totalPayments] at hlast ⊢
    rw [hlast]
    ring
  · rw [hinv.1]
    simp only [House.monthlyRate, House.totalPayments] at hlast ⊢
    rw [hlast]

/-- Concrete witness data for C4: a 40→90 profile gives a 50-year horizon. -/
theorem house_amortization_300k_witness :
    30 ≤ (House.calculateData
      ⟨⟨40, 65, 90, 0, 0, 0, 0, 0⟩, 0, 0, 300000, 0, 6/100, 30, 0, 0, 0, 0⟩).length ∧
    (House.stateAt ⟨⟨40, 65, 90, 0, 0, 0, 0, 0⟩, 0, 0, 300000, 0, 6/100, 30, 0, 0, 0, 0⟩
      30).principalPaid = 300000 ∧
    (House.stateAt ⟨⟨40, 65, 90, 0, 0, 0, 0, 0⟩, 0, 0, 300000, 0, 6/100, 30, 0, 0, 0, 0⟩
      30).remainingPrincipal = 0 :=
  house_amortization_300k ⟨40, 65, 90, 0, 0, 0, 0, 0⟩ 0 0 0 0 0 0 0 (by norm_num)

theorem House.currentValue_stateAt (h : House) :
    ∀ i, (h.stateAt i).currentValue
      = (h.downPayment + h.mortgage) * (1 + h.homeAppreciationRate) ^ i := by
  intro i
  induction i with
  | zero => simp [House.stateAt]
  | succ n ih =>
    show (h.yearStep n (h.stateAt n)).2.currentValue = _
    simp only [House.yearStep]
    rw [ih, pow_succ]
    ring

theorem House.value_dataAt (h : House) (i : Nat) :
    (h.dataAt i).value
      = (h.downPayment + h.mortgage) * (1 + h.homeAppreciationRate) ^ (i + 1) := by
  show (h.yearStep i (h.stateAt i)).1.value = _
  simp only [House.yearStep]
  rw [House.currentValue_stateAt, pow_succ]
  ring

/-- C10: the equity recorded for year `i` is
`(mortgage + downPayment) × (1 + appreciationRate)^(i+1)` — the source
multiplies `currentValue` by `1 + homeAppreciationRate` before pushing the
record, so even the year-0 record carries one full year of appreciation. -/
theorem house_equity_closed_form (h : House) (i : Nat) (hi : i < h.years) :
    (House.calculateData h)[i]?.map HousingYear.value
      = some ((h.mortgage + h.downPayment) * (1 + h.homeAppreciationRate) ^ (i + 1)) := by
  have h1 : (House.calculateData h)[i]? = some (h.dataAt i) := by
    simp [House.calculateData, List.getElem?_map, List.getElem?_range, hi]
  rw [h1, show Option.map HousingYear.value (some (h.dataAt i))
      = some ((h.dataAt i).value) from rfl, House.value_dataAt]
  ring_nf

/-- Concrete witness data for C10: at year 0 the recorded equity is already
`(mortgage + downPayment) × (1 + appreciationRate)`. -/
theorem house_equity_closed_form_witness :
    (House.calculateData
        ⟨⟨60, 65, 62, 0, 0, 0, 0, 0⟩, 0, 0, 100, 50, 0, 30, 0, 1/10, 0, 0⟩)[0]?.map
        HousingYear.value
      = some ((100 + 50) * (1 + 1/10) ^ (0 + 1)) :=
  house_equity_closed_form
    ⟨⟨60, 65, 62, 0, 0, 0, 0, 0⟩, 0, 0, 100, 50, 0, 30, 0, 1/10, 0, 0⟩ 0
    (by norm_num [House.years])

/-- An all-zero house apart from a positive appreciation rate: the spec's
"degenerate financial inputs" (zero principal, zero down payment) are
explicitly legal, and its equity series is constantly 0. -/
def houseZeroValue : House :=
  ⟨⟨60, 65, 62, 0, 0, 0, 0, 0⟩, 0, 0, 0, 0, 0, 30, 0, 3/100, 0, 0⟩

/-- C8 counterexample: `houseZeroValue` has `appreciationRate = 3/100 > 0`
yet its equity series `[0, 0]` is not strictly increasing, refuting the
claim as stated (it quantifies over every House parameterization). -/
theorem house_equity_not_strict_cex :
    0 < houseZeroValue.homeAppreciationRate ∧
    houseZeroValue.calculateData.map HousingYear.value = [0, 0] ∧
    ¬ List.Pairwise (fun a b => a < b)
        (houseZeroValue.calculateData.map HousingYear.value) := by
  have hv : ∀ i, (houseZeroValue.dataAt i).value = 0 := by
    intro i
    rw [House.value_dataAt]
    norm_num [houseZeroValue]
  have hlist : houseZeroValue.calculateData.map HousingYear.value = [0, 0] := by
    have h2 : houseZeroValue.years = 2 := by norm_num [House.years, houseZeroValue]
    rw [House.calculateData, h2]
    simp [List.range_succ, hv]
  refine ⟨by norm_num [houseZeroValue], hlist, ?_⟩
  rw [hlist]
  intro hp
  rcases List.pairwise_cons.mp hp with ⟨h0, _⟩
  exact absurd (h0 0 (List.mem_singleton.mpr rfl)) (lt_irrefl 0)

/-- C8 (amended): for a positive appreciation rate and a positive initial
home value `downPayment + mortgage`, the equity series of
`House.calculateData` is strictly increasing. -/
theorem house_equity_strict_increase (h : House)
    (hApp : 0 < h.homeAppreciationRate) (hVal : 0 < h.downPayment + h.mortgage) :
    List.Pairwise (fun a b => a < b) (h.calculateData.map HousingYear.value) := by
  rw [House.calculateData, List.map_map, List.pairwise_map]
  refine (List.pairwise_lt_range h.years).imp ?_
  intro i j hij
  simp only [Function.comp_apply, House.value_dataAt]
  exact mul_lt_mul_of_pos_left
    (pow_lt_pow_right₀ (by linarith) (by omega)) hVal

/-- Concrete witness data for C8 (amended). -/
theorem house_equity_strict_increase_witness :
    List.Pairwise (fun a b => a < b)
      ((House.calculateData
        ⟨⟨60, 65, 62, 0, 0, 0, 0, 0⟩, 0, 0, 100, 50, 0, 30, 0, 1/10, 0, 0⟩).map
        HousingYear.value) :=
  house_equity_strict_increase
    ⟨⟨60, 65, 62, 0, 0, 0, 0, 0⟩, 0, 0, 100, 50, 0, 30, 0, 1/10, 0, 0⟩
    (by norm_num) (by norm_num)

/-- The C2 failing input: a $300{,}000 mortgage at a 0% rate over 30 years. -/
def houseZeroRate : House :=
  ⟨⟨40, 65, 90, 0, 0, 0, 0, 0⟩, 0, 0, 300000, 0, 0, 30, 0, 0, 0, 0⟩

/-- C2: with a zero mortgage rate and a positive principal the source's
payment expression is `300000 · (0 · 1^360) / (1^360 − 1) = 0/0`, which is
`NaN` in JS (`monthlyMortgagePaymentJS = none`), poisoning the year's
mortgage costs — the formulas do not degrade gracefully for a zero rate.
The other degenerate inputs do behave as claimed: zero principal yields a
zero payment, and a zero monthly contribution leaves the pre-growth balance
flat (`prev + 0×12`), with growth only. -/
theorem degenerate_inputs_zero_rate_undefined :
    House.monthlyMortgagePaymentJS houseZeroRate = none ∧
    (1 + houseZeroRate.monthlyRate) ^ houseZeroRate.totalPayments - 1 = 0 ∧
    House.monthlyMortgagePaymentJS
      ⟨⟨40, 65, 90, 0, 0, 0, 0, 0⟩, 0, 0, 0, 50, 6/100, 30, 0, 0, 0, 0⟩ = some 0 ∧
    NonTaxableInvestment.valueAt ⟨1000, 1/20, 0⟩ ⟨40, 65, 90, 0, 0, 0, 0, 0⟩
        (fun _ => 0) (fun _ => 0) none 0 = 1000 * (1 + 1/20) ∧
    NonTaxableInvestment.valueAt ⟨1000, 1/20, 0⟩ ⟨40, 65, 90, 0, 0, 0, 0, 0⟩
        (fun _ => 0) (fun _ => 0) none 1
      = NonTaxableInvestment.valueAt ⟨1000, 1/20, 0⟩ ⟨40, 65, 90, 0, 0, 0, 0, 0⟩
          (fun _ => 0) (fun _ => 0) none 0 * (1 + 1/20) := by
  have hden : (1 + houseZeroRate.monthlyRate) ^ houseZeroRate.totalPayments - 1 = 0 := by
    norm_num [houseZeroRate, House.monthlyRate, House.totalPayments]
  refine ⟨?_, hden, ?_, ?_, ?_⟩
  · rw [House.monthlyMortgagePaymentJS, if_pos (by norm_num [houseZeroRate]),
      if_pos hden]
  · rw [House.monthlyMortgagePaymentJS, if_neg (by norm_num)]
  · simp only [NonTaxableInvestment.valueAt, NonTaxableInvestment.yearValue,
      if_pos (by norm_num : (0:Nat) < 65 - 40)]
    norm_num
  · simp only [NonTaxableInvestment.valueAt, NonTaxableInvestment.yearValue,
      if_pos (by norm_num : (1:Nat) < 65 - 40),
      if_pos (by norm_num : (0:Nat) < 65 - 40)]
    norm_num

/-- The `Apartment` object: constructor fields plus the `housingData` array,
which `calculateData` pushes into without clearing. -/
structure ApartmentObj where
  generalInformation : GeneralInformation
  monthlyInsurance : ℚ
  monthlyHOA : ℚ
  monthlyRent : ℚ
  annualRentIncrease : ℚ
  housingData : List HousingYear
deriving DecidableEq

/-- One iteration of `Apartment.calculateData`'s year loop over the object
state and the local `currentRent`.  The source reads
`this.housingData[i-1].totalCosts` by absolute index, so the read targets
the array as it stands (including records left over from an earlier run). -/
def Apartment.yearPush (i : Nat) (acc : ApartmentObj × ℚ) : ApartmentObj × ℚ :=
  let obj := acc.1
  let currentRent := acc.2
  let yearlyCosts := currentRent * 12 + obj.monthlyInsurance * 12 + obj.monthlyHOA * 12
  let totalCosts := if i = 0 then yearlyCosts
    else (obj.housingData.getD (i - 1) ⟨0, 0, 0, 0⟩).totalCosts + yearlyCosts
  ({ obj with
      housingData := obj.housingData ++
        [⟨obj.generalInformation.startAge + i, 0, yearlyCosts, totalCosts⟩],
      monthlyInsurance := obj.monthlyInsurance * (1 + obj.generalInformation.inflation),
      monthlyHOA := obj.monthlyHOA * (1 + obj.generalInformation.inflation) },
   currentRent * (1 + obj.annualRentIncrease))

/-- `Apartment.calculateData` as a transformation of the object: the local
`currentRent` starts from the (unmutated) `monthlyRent` field, and the year
loop pushes one record per year while inflating the insurance and HOA
fields in place. -/
def Apartment.calculateData (a : ApartmentObj) : ApartmentObj :=
  ((List.range (a.generalInformation.lifeExpectancy - a.generalInformation.startAge)).foldl
    (fun acc i => Apartment.yearPush i acc) (a, a.monthlyRent)).1

theorem Apartment.foldl_yearPush_append :
    ∀ (L : List Nat) (acc : ApartmentObj × ℚ),
      ∃ t, (L.foldl (fun acc i => Apartment.yearPush i acc) acc).1.housingData
        = acc.1.housingData ++ t := by
  intro L
  induction L with
  | nil => intro acc; exact ⟨[], by simp⟩
  | cons i L ih =>
    intro acc
    obtain ⟨t, ht⟩ := ih (Apartment.yearPush i acc)
    obtain ⟨u, hu⟩ : ∃ u, (Apartment.yearPush i acc).1.housingData
        = acc.1.housingData ++ u := ⟨_, rfl⟩
    exact ⟨u ++ t, by rw [List.foldl_cons, ht, hu, List.append_assoc]⟩

/-- The concrete object used for the C9 counterexample: rent $1000, two
simulated years, no inflation, empty initial `housingData`. -/
def aptTwice : ApartmentObj :=
  ⟨⟨60, 65, 62, 0, 0, 0, 0, 0⟩, 0, 0, 1000, 0, []⟩

/-- C9 counterexample: running `Apartment.calculateData` a second time on
the same object does not leave the produced series equal to the result of
running it once — the second run appends two further records, doubling the
array from 2 to 4 entries. -/
theorem calculateData_not_idempotent_cex :
    (Apartment.calculateData (Apartment.calculateData aptTwice)).housingData.length = 4 ∧
    (Apartment.calculateData aptTwice).housingData.length = 2 ∧
    (Apartment.calculateData (Apartment.calculateData aptTwice)).housingData
      ≠ (Apartment.calculateData aptTwice).housingData := by
  have h4 : (Apartment.calculateData (Apartment.calculateData aptTwice)).housingData.length = 4 := by
    rfl
  have h2 : (Apartment.calculateData aptTwice).housingData.length = 2 := by
    rfl
  refine ⟨h4, h2, fun h => ?_⟩
  rw [congrArg List.length h, h2] at h4
  exact absurd h4 (by norm_num)

/-- C9 (amended): each run of `Apartment.calculateData` only appends to
`housingData`, so the records produced by a first run survive a second run
as an unchanged prefix — but the second run does append (it does not leave
the series equal), as the counterexample shows. -/
theorem calculateData_appends_prefix (a : ApartmentObj) :
    (Apartment.calculateData a).housingData.take a.housingData.length
      = a.housingData ∧
    (Apartment.calculateData (Apartment.calculateData a)).housingData.take
        (Apartment.calculateData a).housingData.length
      = (Apartment.calculateData a).housingData := by
  have key : ∀ b : ApartmentObj,
      (Apartment.calculateData b).housingData.take b.housingData.length
        = b.housingData := by
    intro b
    obtain ⟨t, ht⟩ := Apartment.foldl_yearPush_append
      (List.range (b.generalInformation.lifeExpectancy - b.generalInformation.startAge))
      (b, b.monthlyRent)
    rw [Apartment.calculateData, ht]
    exact List.take_left b.housingData t
  exact ⟨key a, key (Apartment.calculateData a)⟩

end RetirementCalc
